import Mathlib

/-!
Verification development for the brand-checker backend (Python sources
`backend/checkers.py`, `backend/nice_classes.py`).

The Python code is shallowly embedded: JSON-like Python values become the
inductive `PyVal`; environment variables become the record `Env`; each
outbound HTTP interaction is an oracle value (`HttpOutcome`) supplied to the
embedded function; raising an exception becomes returning `Except.error`
with the exception message.

Modelling conventions, stated once here:
* Python `str.strip` and `str.lower` are modelled on ASCII whitespace and
  ASCII case, which covers every string the program and its fixed tables
  produce.
* Python `str.isdigit` and `int()` are modelled with a truncated Unicode
  table (`pyCharDecimal`, `pyCharIsDigit`): decimal digits are modelled for
  ASCII 0-9, Arabic-Indic U+0660-0669, Extended Arabic-Indic U+06F0-06F9,
  Devanagari U+0966-096F and fullwidth U+FF10-FF19; digit-only characters
  (`isdigit()` true but `int()` raising) for the superscripts U+00B2, U+00B3,
  U+00B9, U+2070, U+2074-2079 and the subscripts U+2080-2089; every other
  code point is modelled as a non-digit.  The truncation preserves the two
  behaviours the source can hit in `int(x) if x.isdigit() else 999`: a
  digit-only value makes the sort key raise ValueError, and a non-ASCII
  decimal value is keyed by its numeric value, not by 999.
* CPython set iteration order is unspecified; `sorted(set(xs), key=k)` is
  modelled as computing the key of each element in iteration order (the
  first key error raises, as in CPython, which calls the key function on
  every element before comparing) and then stably insertion-sorting on the
  cached keys, applied to a deduplicated list.  Every theorem below that
  inspects an output order only does so on inputs whose sort keys are
  pairwise distinct, where the result is independent of the dedup order
  (see `cex4_order_invariant`).
* `asyncio.gather` returns results positionally (its documented contract);
  when several concurrent coroutines raise, which exception surfaces first
  is scheduling dependent, and the model surfaces the first in list order.
  Theorems relying on a propagated exception use scenarios with exactly one
  raising fetch, where the choice is immaterial.
-/

namespace BrandChecker

/-- A JSON-like Python value: the shapes flowing through the checker. -/
inductive PyVal where
  | none : PyVal
  | bool : Bool → PyVal
  | int : Int → PyVal
  | str : String → PyVal
  | list : List PyVal → PyVal
  | dict : List (String × PyVal) → PyVal

/-- Python truthiness for the values of `PyVal`. -/
def pyTruthy : PyVal → Bool
  | .none => false
  | .bool b => b
  | .int n => n != 0
  | .str s => s != ""
  | .list xs => !xs.isEmpty
  | .dict kvs => !kvs.isEmpty

/-- Python type name, as used in TypeError and AttributeError messages. -/
def pyTypeName : PyVal → String
  | .none => "NoneType"
  | .bool _ => "bool"
  | .int _ => "int"
  | .str _ => "str"
  | .list _ => "list"
  | .dict _ => "dict"

mutual

/-- Python repr() of a `PyVal`.  String escaping inside repr is not needed by
any value the development evaluates, so strings are wrapped in plain quotes. -/
def pyRepr : PyVal → String
  | .none => "None"
  | .bool b => if b then "True" else "False"
  | .int n => toString n
  | .str s => "\x27" ++ s ++ "\x27"
  | .list xs => "[" ++ String.intercalate ", " (pyReprList xs) ++ "]"
  | .dict kvs => "\x7b" ++ String.intercalate ", " (pyReprKVs kvs) ++ "\x7d"

/-- repr() mapped over a list of values. -/
def pyReprList : List PyVal → List String
  | [] => []
  | x :: xs => pyRepr x :: pyReprList xs

/-- repr() mapped over the entries of a dict. -/
def pyReprKVs : List (String × PyVal) → List String
  | [] => []
  | (k, v) :: xs => ("\x27" ++ k ++ "\x27: " ++ pyRepr v) :: pyReprKVs xs

end

/-- Python str() of a `PyVal`; on containers str() falls back to repr(). -/
def pyStr : PyVal → String
  | .none => "None"
  | .bool b => if b then "True" else "False"
  | .int n => toString n
  | .str s => s
  | v => pyRepr v

/-- The characters stripped by Python str.strip() (ASCII whitespace). -/
def isPySpace (c : Char) : Bool :=
  c = ' ' || c = '\t' || c = '\n' || c = '\x0d' || c = '\x0b' || c = '\x0c'

/-- List-level left-and-right strip used to model str.strip(). -/
def stripChars (l : List Char) : List Char :=
  ((l.dropWhile isPySpace).reverse.dropWhile isPySpace).reverse

/-- Python str.strip() with no argument. -/
def pyStrip (s : String) : String :=
  String.mk (stripChars s.toList)

/-- Python str.lower(), ASCII model. -/
def pyLower (s : String) : String :=
  String.mk (s.toList.map Char.toLower)

/-- Decimal value of a character (Unicode category Nd), truncated to the
ranges named in the header: these are exactly the characters `int()`
accepts as digits. -/
def pyCharDecimal (c : Char) : Option Nat :=
  if 48 ≤ c.toNat ∧ c.toNat ≤ 57 then some (c.toNat - 48)
  else if 0x660 ≤ c.toNat ∧ c.toNat ≤ 0x669 then some (c.toNat - 0x660)
  else if 0x6f0 ≤ c.toNat ∧ c.toNat ≤ 0x6f9 then some (c.toNat - 0x6f0)
  else if 0x966 ≤ c.toNat ∧ c.toNat ≤ 0x96f then some (c.toNat - 0x966)
  else if 0xff10 ≤ c.toNat ∧ c.toNat ≤ 0xff19 then some (c.toNat - 0xff10)
  else Option.none

/-- The per-character test behind Python str.isdigit(): true for every
decimal digit and additionally for digit-only characters (numeric digits
that `int()` rejects), truncated to the superscript and subscript digits
named in the header. -/
def pyCharIsDigit (c : Char) : Bool :=
  (pyCharDecimal c).isSome
    || c.toNat = 0xb2 || c.toNat = 0xb3 || c.toNat = 0xb9
    || c.toNat = 0x2070 || (0x2074 ≤ c.toNat && c.toNat ≤ 0x2079)
    || (0x2080 ≤ c.toNat && c.toNat ≤ 0x2089)

/-- Python str.isdigit(): nonempty and every character has the digit
property.  Note this is wider than what `int()` accepts: a digit-only
character such as the superscript two U+00B2 satisfies isdigit() while
`int()` raises on it. -/
def pyIsDigit (s : String) : Bool :=
  s ≠ "" && s.toList.all pyCharIsDigit

/-- Base-10 value of a run of decimal-digit characters; `Option.none` when
some character has no decimal value. -/
def decDigitsVal (l : List Char) : Option Nat :=
  l.foldl
    (fun acc c =>
      match acc, pyCharDecimal c with
      | some n, some d => some (n * 10 + d)
      | _, _ => Option.none)
    (some 0)

/-- Python int() applied to a string: strip, optional sign, then decimal
digit characters (any script `int()` accepts).  Underscore digit grouping
is not modelled; no value in this development contains it. -/
def parsePyInt (s : String) : Option Int :=
  let t := (pyStrip s).toList
  match t with
  | '-' :: ds =>
    if ds = [] then Option.none
    else (decDigitsVal ds).map (fun n => -(n : Int))
  | '+' :: ds =>
    if ds = [] then Option.none
    else (decDigitsVal ds).map (fun n => (n : Int))
  | ds =>
    if ds = [] then Option.none
    else (decDigitsVal ds).map (fun n => (n : Int))

/-- Python int() applied to a `PyVal`; failure carries the exception text. -/
def pyToInt : PyVal → Except String Int
  | .int n => .ok n
  | .bool b => .ok (if b then 1 else 0)
  | .str s =>
    match parsePyInt s with
    | some n => .ok n
    | Option.none => .error ("invalid literal for int() with base 10: " ++ pyRepr (.str s))
  | v => .error ("int() argument must be a string, a bytes-like object or a real number, not \x27" ++ pyTypeName v ++ "\x27")

/-- Python `v.get(k)` with default `None`: succeeds only on dicts, raising
AttributeError on every other receiver. -/
def pyGet (v : PyVal) (k : String) : Except String PyVal :=
  match v with
  | .dict kvs => .ok ((((kvs.find? (fun kv => kv.1 = k))).map Prod.snd).getD .none)
  | _ => .error ("\x27" ++ pyTypeName v ++ "\x27 object has no attribute \x27get\x27")

/-- Python `v.get(k, d)` with an explicit default. -/
def pyGetDef (v : PyVal) (k : String) (d : PyVal) : Except String PyVal :=
  match v with
  | .dict kvs => .ok ((((kvs.find? (fun kv => kv.1 = k))).map Prod.snd).getD d)
  | _ => .error ("\x27" ++ pyTypeName v ++ "\x27 object has no attribute \x27get\x27")

/-- Dictionary lookup on an argument statically typed `Dict`, as in
`extract_nice_classes(tm: Dict)`: `tm.get(k)` with default `None`. -/
def dictGet (kvs : List (String × PyVal)) (k : String) : PyVal :=
  (((kvs.find? (fun kv => kv.1 = k))).map Prod.snd).getD .none

/-- Truthiness of an `os.getenv` result (`None` or a string). -/
def optTruthy : Option String → Bool
  | Option.none => false
  | some s => s != ""

/-! ## nice_classes.py -/

/-- NICE_CLASS_MAP from nice_classes.py, lines 5-51. -/
def NICE_CLASS_MAP : List (String × String) :=
  [("1", "Chemicals"),
   ("2", "Paints, varnishes & coatings"),
   ("3", "Cosmetics & cleaning preparations"),
   ("4", "Industrial oils, greases & fuels"),
   ("5", "Pharmaceuticals & medical preparations"),
   ("6", "Common metals & metal goods"),
   ("7", "Machines & machine tools"),
   ("8", "Hand tools"),
   ("9", "Scientific & electronic apparatus, software"),
   ("10", "Medical apparatus"),
   ("11", "Lighting, heating & cooling"),
   ("12", "Vehicles"),
   ("13", "Firearms"),
   ("14", "Jewellery, clocks & watches"),
   ("15", "Musical instruments"),
   ("16", "Paper goods & printed matter"),
   ("17", "Rubber, plastics & insulation materials"),
   ("18", "Leather goods & bags"),
   ("19", "Building materials"),
   ("20", "Furniture"),
   ("21", "Household utensils & glassware"),
   ("22", "Ropes, nets & sacks"),
   ("23", "Yarns & threads"),
   ("24", "Textiles & textile goods"),
   ("25", "Clothing, footwear & headgear"),
   ("26", "Lace, buttons & haberdashery"),
   ("27", "Floor coverings"),
   ("28", "Games, toys & sporting goods"),
   ("29", "Meat, fish & processed foods"),
   ("30", "Coffee, tea, flour & bakery goods"),
   ("31", "Agriculture & fresh foods"),
   ("32", "Beers & non-alcoholic beverages"),
   ("33", "Alcoholic beverages"),
   ("34", "Tobacco & smokers\x27 articles"),
   ("35", "Advertising, business & retail services"),
   ("36", "Financial, insurance & real estate services"),
   ("37", "Construction & repair services"),
   ("38", "Telecommunications"),
   ("39", "Transport, packaging & travel services"),
   ("40", "Material treatment"),
   ("41", "Education, entertainment & sporting services"),
   ("42", "Scientific & technology services; software"),
   ("43", "Food, drink & accommodation services"),
   ("44", "Medical, beauty & agriculture services"),
   ("45", "Legal & security services")]

/-- label_nice_class from nice_classes.py, lines 54-59. -/
def label_nice_class (n : String) : String :=
  let key := pyStrip n
  match NICE_CLASS_MAP.find? (fun kv => kv.1 = key) with
  | some kv => key ++ " (" ++ kv.2 ++ ")"
  | Option.none => key

/-! ## normalize_query (checkers.py, lines 93-95) -/

/-- Replacement of every whitespace run by a single space, the effect of
`re.sub(r"\s+", " ", s)`.  The Boolean records whether the previous
character belonged to a whitespace run already replaced. -/
def collapseSpacesAux : Bool → List Char → List Char
  | _, [] => []
  | inRun, c :: cs =>
    if isPySpace c then
      (if inRun then [] else [' ']) ++ collapseSpacesAux true cs
    else
      c :: collapseSpacesAux false cs

/-- Replacement of every whitespace run by a single space. -/
def collapseSpaces (l : List Char) : List Char :=
  collapseSpacesAux false l

/-- normalize_query from checkers.py: strip, then collapse whitespace runs. -/
def normalize_query (name : String) : String :=
  String.mk (collapseSpaces (stripChars name.toList))

/-! ## extract_nice_classes (checkers.py, lines 169-219) -/

/-- Sequential effect of a fallible map: a Python `for` loop building a
list, `sorted` calling its key function on each element, or
`asyncio.gather` over fallible fetches — the first raise aborts, otherwise
the results are collected positionally. -/
def mapExcept (f : α → Except String β) : List α → Except String (List β)
  | [] => .ok []
  | x :: xs => do
    let y ← f x
    let ys ← mapExcept f xs
    .ok (y :: ys)

/-- The sort key `int(x) if x.isdigit() else 999` of lines 217 and 385.
The lambda calls `int(x)` whenever `x.isdigit()` holds, so it raises
ValueError on a digit-only value such as "²". -/
def pyNiceKey (x : String) : Except String Int :=
  if pyIsDigit x then pyToInt (.str x) else .ok 999

/-- Comparison of key-cached elements, used for the stable sort. -/
def keyedLe (a b : String × Int) : Prop :=
  a.2 ≤ b.2

instance : DecidableRel keyedLe :=
  fun a b => inferInstanceAs (Decidable (a.2 ≤ b.2))

instance : IsTotal (String × Int) keyedLe :=
  ⟨fun a b => Int.le_total a.2 b.2⟩

instance : IsTrans (String × Int) keyedLe :=
  ⟨fun _ _ _ => Int.le_trans⟩

/-- `sorted(xs, key=lambda x: int(x) if x.isdigit() else 999)`: compute the
key of every element in iteration order (the first ValueError from `int()`
propagates, since CPython evaluates the key of each element before
comparing), then sort stably on the cached keys. -/
def pySortedByNiceKey (l : List String) : Except String (List String) := do
  let keyed ← mapExcept (fun x => (pyNiceKey x).map (fun k => (x, k))) l
  Except.ok ((List.insertionSort keyedLe keyed).map Prod.fst)

/-- Candidate collection of lines 171-195, in source order: the three direct
array fields, the nested goodsAndServices object with its two array
sub-fields, goodsAndServices as a direct array, and classificationList. -/
def extractCandidates (tm : List (String × PyVal)) : List PyVal :=
  (match dictGet tm "classes" with | .list l => l | _ => [])
    ++ (match dictGet tm "niceClasses" with | .list l => l | _ => [])
    ++ (match dictGet tm "classifications" with | .list l => l | _ => [])
    ++ (match dictGet tm "goodsAndServices" with
        | .dict g =>
          (match dictGet g "classes" with | .list l => l | _ => [])
            ++ (match dictGet g "niceClasses" with | .list l => l | _ => [])
        | _ => [])
    ++ (match dictGet tm "goodsAndServices" with | .list l => l | _ => [])
    ++ (match dictGet tm "classificationList" with | .list l => l | _ => [])

/-- The candidate key names of lines 201-207, in priority order. -/
def classNumKeys : List String := ["number", "classNumber", "niceClass", "class", "classId"]

/-- Python `c.get(k1) or c.get(k2) or ...`: the first truthy value, and the
value of the last lookup when every lookup is falsy. -/
def orChainDict (c : List (String × PyVal)) : List String → PyVal
  | [] => .none
  | [k] => dictGet c k
  | k :: ks =>
    let v := dictGet c k
    if pyTruthy v then v else orChainDict c ks

/-- Lines 200-209: a structured candidate yields the prioritized key chain,
a scalar candidate is used directly. -/
def candidateNum (c : PyVal) : PyVal :=
  match c with
  | .dict kvs => orChainDict kvs classNumKeys
  | v => v

/-- The `is None` identity test of line 211. -/
def pyIsNone : PyVal → Bool
  | .none => true
  | _ => false

/-- Lines 208-214 for one candidate: skip a `None` number, stringify and
strip, keep the result only when nonempty. -/
def candidateStr (c : PyVal) : Option String :=
  if pyIsNone (candidateNum c) then Option.none
  else
    let s := pyStrip (pyStr (candidateNum c))
    if s ≠ "" then some s else Option.none

/-- Lines 198-214: the `numbers` list accumulated by the loop. -/
def collectNumbers (cs : List PyVal) : List String :=
  cs.filterMap candidateStr

/-- extract_nice_classes, lines 169-219.  CPython iterates `set(numbers)` in
an unspecified order before the stable sort; the model deduplicates the list
instead.  Every ordered output inspected by a theorem below has pairwise
distinct sort keys, where the sorted result does not depend on that order.
The function raises ValueError when some collected value satisfies
isdigit() without being `int()`-parseable (a digit-only character). -/
def extract_nice_classes (tm : List (String × PyVal)) : Except String (List String) :=
  pySortedByNiceKey (collectNumbers (extractCandidates tm)).dedup

/-! ## OAuth token cache (checkers.py, lines 98-167) -/

/-- The process-wide `_cached_token` dict: `{token, expiresAt}`. -/
structure CachedToken where
  token : PyVal
  expiresAt : Int

/-- Module-level mutable state of checkers.py relevant to the token flow. -/
structure TokenState where
  cached_token : Option CachedToken := Option.none

/-- Environment variables read by checkers.py. -/
structure Env where
  IPAU_ENV : Option String := Option.none
  IPAU_TOKEN_URL_PROD : Option String := Option.none
  IPAU_TOKEN_URL_TEST : Option String := Option.none
  IPAU_CLIENT_ID : Option String := Option.none
  IPAU_CLIENT_SECRET : Option String := Option.none
  IPAU_TM_BASE_URL_PROD : Option String := Option.none
  IPAU_TM_BASE_URL_TEST : Option String := Option.none

/-- Outcome of one outbound HTTP call, as seen by the caller: either the
client raised (connection error, timeout), or a response arrived carrying
success flag, status code, body text, and the result of decoding the body
as JSON. -/
inductive HttpOutcome where
  | raise (msg : String)
  | resp (is_success : Bool) (status_code : Nat) (text : String) (json : Except String PyVal)

/-- The names bound at module level in checkers.py, for Python name
resolution: a free variable of a module-level function resolves against
this list and raises NameError when absent. -/
def moduleGlobalNames : List String :=
  ["os", "re", "time", "asyncio", "Dict", "List", "Optional", "Literal",
   "httpx", "label_nice_class", "AvailabilityStatus", "TrademarkMatch",
   "CheckResult", "AggregatedResults", "normalize_query", "_cached_token",
   "_token_lock", "get_ipau_access_token", "request_new_token",
   "extract_nice_classes", "fetch_trademark_details",
   "check_ip_australia_trademark", "get_demo_results"]

/-- Name resolution for a free variable of a module-level function. -/
def resolveGlobal (n : String) : Except String PUnit :=
  if moduleGlobalNames.contains n then .ok ⟨⟩
  else .error ("name \x27" ++ n ++ "\x27 is not defined")

/-- request_new_token, checkers.py lines 132-167.  The names `token_url`,
`client_id` and `client_secret` are free variables of this function; they
are local variables of `get_ipau_access_token` and are not module globals,
so evaluating the `client.post(token_url, data=\x7b..\x7d, ..)` call raises
NameError before any request is issued.  The assignment `_cached_token = ..`
on line 162 binds a function-local variable, because this function has no
`global _cached_token` declaration, so the returned module state is the
input state unchanged even on the (unreachable) success path. -/
def request_new_token (net : HttpOutcome) (st : TokenState) : Except String (PyVal × TokenState) := do
  let _ ← resolveGlobal "token_url"
  let _ ← resolveGlobal "client_id"
  let _ ← resolveGlobal "client_secret"
  match net with
  | .raise m => .error m
  | .resp ok status text js =>
    if !ok then
      .error ("Token request failed " ++ toString status ++ ": " ++ text.take 250)
    else do
      let data ← js
      let access_token ← pyGet data "access_token"
      let _expires_in ← pyToInt (← pyGetDef data "expires_in" (.int 3600))
      if !pyTruthy access_token then
        .error ("Token response missing access_token: " ++ text.take 250)
      else
        .ok (access_token, st)

/-- get_ipau_access_token, checkers.py lines 102-130: configuration checks,
then reuse of a valid cached token, else a refresh via request_new_token.
The `_token_lock` only serializes refreshes and does not alter the
sequential result, so it has no residue in the embedding. -/
def get_ipau_access_token (env : Env) (now_ms : Int) (net : HttpOutcome) (st : TokenState) :
    Except String (PyVal × TokenState) :=
  let envName := env.IPAU_ENV.getD "test"
  let token_url := if envName = "production" then env.IPAU_TOKEN_URL_PROD else env.IPAU_TOKEN_URL_TEST
  if !optTruthy token_url then .error "Missing IPAU_TOKEN_URL_TEST/PROD in environment"
  else if !optTruthy env.IPAU_CLIENT_ID then .error "Missing IPAU_CLIENT_ID in environment"
  else if !optTruthy env.IPAU_CLIENT_SECRET then .error "Missing IPAU_CLIENT_SECRET in environment"
  else
    match st.cached_token with
    | some c => if now_ms < c.expiresAt then .ok (c.token, st) else request_new_token net st
    | Option.none => request_new_token net st

/-! ## Result model (checkers.py, lines 12-68) -/

/-- The closed status enumeration of line 12. -/
inductive AvailabilityStatus where
  | available
  | taken
  | unknown
  | similar
deriving Repr, DecidableEq

/-- TrademarkMatch, lines 15-37.  Field defaults mirror the constructor
defaults: `words`/`status` default to None, `classes`/`class_labels` to the
empty list (`classes or []`). -/
structure TrademarkMatch where
  id : PyVal
  words : Option String := Option.none
  status : Option String := Option.none
  classes : List String := []
  class_labels : List String := []

/-- CheckResult, lines 40-68, with the same constructor defaults. -/
structure CheckResult where
  label : String
  status : AvailabilityStatus
  summary : Option String := Option.none
  why_this_matters : Option String := Option.none
  details : Option String := Option.none
  exact_matches : List TrademarkMatch := []
  similar_matches : List TrademarkMatch := []

/-! ## fetch_trademark_details (checkers.py, lines 222-249) -/

/-- Per-id detail outcome: the `\x7bid, data\x7d` / `\x7bid, error\x7d`
dict returned by fetch_trademark_details. -/
inductive DetailPayload where
  | data (d : PyVal)
  | error (msg : String)

/-- One element of the gathered detail results. -/
structure DetailResult where
  id : PyVal
  payload : DetailPayload

/-- fetch_trademark_details, lines 222-249: a non-success status or a
non-JSON body is captured per id; an exception from the HTTP client itself
(connection error, timeout) propagates to the caller. -/
def fetch_trademark_details (id : PyVal) (o : HttpOutcome) : Except String DetailResult :=
  match o with
  | .raise m => .error m
  | .resp ok status text js =>
    if !ok then
      .ok ⟨id, .error ("Detail fetch failed " ++ toString status ++ ": " ++ text.take 120)⟩
    else
      match js with
      | .ok d => .ok ⟨id, .data d⟩
      | .error _ => .ok ⟨id, .error ("Detail fetch returned non-JSON: " ++ text.take 120)⟩

/-! ## check_ip_australia_trademark (checkers.py, lines 252-461) -/

/-- The outbound collaborators of one checker invocation: the awaited
get_ipau_access_token result, the quick-search call outcome, and the detail
fetch outcome for each id. -/
structure CheckerNet where
  token : Except String PyVal
  search : HttpOutcome
  detail : PyVal → HttpOutcome

/-- Lines 327-330: fetch details for each id; `asyncio.gather` collects the
results in argument order and re-raises a raised exception. -/
def gatherDetails (f : PyVal → HttpOutcome) (ids : List PyVal) : Except String (List DetailResult) :=
  mapExcept (fun id => fetch_trademark_details id (f id)) ids

/-- The probe order for the words field, line 352-360. -/
def wordKeys : List String :=
  ["words", "tradeMarkWords", "markText", "text", "name", "tradeMarkName"]

/-- The probe order for the status field, lines 363-372. -/
def statusKeys : List String :=
  ["statusGroup", "statusCode", "statusDetail", "status", "tradeMarkStatus", "state", "ipRightStatus"]

/-- Python `tm.get(k1) or tm.get(k2) or ... or ""`: first truthy lookup,
else the final literal `""`; every lookup may raise on a non-dict
receiver. -/
def orChainGet (tm : PyVal) : List String → Except String PyVal
  | [] => .ok (.str "")
  | k :: ks => do
    let v ← pyGet tm k
    if pyTruthy v then .ok v else orChainGet tm ks

/-- Lines 378-383: collect `str(gs.get("class"))` over the goodsAndServices
items whose class value is truthy; `gs.get` raises on non-dict items. -/
def collectGsClasses : List PyVal → Except String (List String)
  | [] => .ok []
  | gs :: rest => do
    let cls ← pyGet gs "class"
    let tail ← collectGsClasses rest
    .ok ((if pyTruthy cls then [pyStr cls] else []) ++ tail)

/-- Lines 336-396: turn one detail result into a TrademarkMatch.  An error
payload yields the empty-fields placeholder; a data payload probes the word
and status fields, collects classes (deduplicated and stably sorted with
the same fallible key as extract_nice_classes, line 385), and labels every
class. -/
def parseMatch (d : DetailResult) : Except String TrademarkMatch :=
  match d.payload with
  | .error _ =>
    .ok { id := d.id, words := some "", status := some "", classes := [], class_labels := [] }
  | .data tm => do
    let words ← orChainGet tm wordKeys
    let status ← orChainGet tm statusKeys
    let gns ← pyGet tm "goodsAndServices"
    let collected ← match gns with
      | .list l => collectGsClasses l
      | _ => .ok []
    let classes ← pySortedByNiceKey collected.dedup
    .ok { id := d.id, words := some (pyStr words), status := some (pyStr status),
          classes := classes, class_labels := classes.map label_nice_class }

/-- Truthiness of `p.words` for a parsed match (None and "" are falsy). -/
def wordsTruthy (m : TrademarkMatch) : Bool :=
  match m.words with
  | some w => w != ""
  | Option.none => false

/-- The exact-match predicate of lines 399-409:
`p.words and p.words.lower() == q_lower`. -/
def isExactMatch (q_lower : String) (m : TrademarkMatch) : Bool :=
  wordsTruthy m && (pyLower (m.words.getD "") == q_lower)

/-- The similar-match predicate of lines 411-421:
`p.words and p.words.lower() != q_lower`. -/
def isSimilarMatch (q_lower : String) (m : TrademarkMatch) : Bool :=
  wordsTruthy m && (pyLower (m.words.getD "") != q_lower)

/-- Python `", ".join(ids)`: raises TypeError on a non-string element. -/
def pyJoinComma (vs : List PyVal) : Except String String := do
  let ss ← mapExcept (fun v =>
    match v with
    | .str s => Except.ok s
    | w => Except.error ("sequence item: expected str instance, " ++ pyTypeName w ++ " found")) vs
  .ok (String.intercalate ", " ss)

/-- Lines 332-452, after the quick search succeeded with a nonzero count:
parse every detail result, split into exact and similar matches (the list
comprehensions of lines 399-421 rebuild each match with identical field
values, so they are filters), fall back to bare-id placeholders when both
partitions are empty, and otherwise report taken or similar. -/
def buildResult (q_lower : String) (count : Int) (trademark_ids : List PyVal)
    (detail_results : List DetailResult) : Except String CheckResult := do
  let parsed ← mapExcept parseMatch detail_results
  let exact_matches := parsed.filter (isExactMatch q_lower)
  let similar_matches := parsed.filter (isSimilarMatch q_lower)
  if exact_matches.length + similar_matches.length = 0 then do
    let idsStr ← pyJoinComma (trademark_ids.take 5)
    Except.ok
      { label := "Trademark (IP Australia)"
        status := .similar
        summary := some "Registered trademarks exist with this name or something similar."
        why_this_matters := some "Even if names aren\x27t identical, similar marks in related categories can increase legal and branding risk."
        details := some ("Found " ++ toString count ++ " registered match(es). IDs: " ++ idsStr)
        similar_matches := (trademark_ids.take 5).map (fun id => { id := id }) }
  else
    Except.ok
      { label := "Trademark (IP Australia)"
        status := if 0 < exact_matches.length then .taken else .similar
        summary := some (if 0 < exact_matches.length then
            "An identical registered trademark exists in Australia."
          else
            "Similar registered trademarks exist in Australia.")
        why_this_matters := some (if 0 < exact_matches.length then
            "Using the same name can create a high risk of trademark conflict, especially in related industries."
          else
            "Even if names aren\x27t identical, similar marks in related categories can still cause legal and branding risk.")
        details := some ("Found " ++ toString count ++ " registered match(es). Showing the top "
          ++ toString (trademark_ids.take 5).length ++ ".")
        exact_matches := exact_matches
        similar_matches := similar_matches }

/-- Lines 311: `int(data.get("count", 0))`. -/
def quickCount (data : PyVal) : Except String Int := do
  pyToInt (← pyGetDef data "count" (.int 0))

/-- Lines 312-315: `data.get("trademarkIds", [])`, coerced to `[]` when not
a list. -/
def quickIdsOf (data : PyVal) : Except String (List PyVal) := do
  let v ← pyGetDef data "trademarkIds" (.list [])
  match v with
  | .list l => Except.ok l
  | _ => Except.ok []

/-- The unknown result of lines 300-306 (quick search HTTP error). -/
def searchHttpErrorResult (status : Nat) (text : String) : CheckResult :=
  { label := "Trademark (IP Australia)"
    status := .unknown
    summary := some "We couldn\x27t complete the trademark check right now."
    why_this_matters := some "Trademark results help you avoid choosing a name that could conflict with an existing brand."
    details := some ("IP Australia error " ++ toString status ++ ": " ++ text.take 250) }

/-- The available result of lines 318-324 (zero quick-search results). -/
def availableResult : CheckResult :=
  { label := "Trademark (IP Australia)"
    status := .available
    summary := some "No registered word trademarks were found in Australia."
    why_this_matters := some "This lowers risk, but it\x27s not a guarantee. Similar marks, pending applications, or other rights may still exist."
    details := some "0 registered results returned by IP Australia quick search." }

/-- The body of the `try` block, lines 284-452. -/
def checkBody (q : String) (net : CheckerNet) : Except String CheckResult := do
  let _token ← net.token
  match net.search with
  | .raise m => Except.error m
  | .resp ok status text js =>
    if !ok then
      Except.ok (searchHttpErrorResult status text)
    else do
      let data ← js
      let count ← quickCount data
      let trademark_ids ← quickIdsOf data
      if count = 0 ∨ trademark_ids.isEmpty then
        Except.ok availableResult
      else do
        let top_ids := trademark_ids.take 5
        let detail_results ← gatherDetails net.detail top_ids
        buildResult (pyLower q) count trademark_ids detail_results

/-- The unknown result of lines 263-270 (missing base URL). -/
def missingBaseUrlResult : CheckResult :=
  { label := "Trademark (IP Australia)"
    status := .unknown
    summary := some "We couldn\x27t run the trademark check right now."
    why_this_matters := some "Trademark results help you avoid picking a name that could conflict with an existing brand."
    details := some "Missing IPAU_TM_BASE_URL_TEST/PROD in environment" }

/-- The unknown result of lines 455-461 (caught exception). -/
def requestFailedResult (e : String) : CheckResult :=
  { label := "Trademark (IP Australia)"
    status := .unknown
    summary := some "We couldn\x27t run the trademark check right now."
    why_this_matters := some "Trademark results help you avoid choosing a name that could conflict with an existing brand."
    details := some ("Request failed: " ++ e) }

/-- Lines 256-261: resolution of the environment-specific base URL. -/
def resolvedBaseUrl (env : Env) : Option String :=
  if env.IPAU_ENV.getD "test" = "production" then env.IPAU_TM_BASE_URL_PROD
  else env.IPAU_TM_BASE_URL_TEST

/-- check_ip_australia_trademark, lines 252-461: normalize the query,
return the degraded configuration result when the base URL is unset, and
otherwise run the try block, converting any raised exception into the
unknown result carrying the exception text. -/
def check_ip_australia_trademark (env : Env) (net : CheckerNet) (name : String) : CheckResult :=
  let q := normalize_query name
  if !optTruthy (resolvedBaseUrl env) then missingBaseUrlResult
  else
    match checkBody q net with
    | .ok r => r
    | .error e => requestFailedResult e

/-! ## Generic lemmas -/

theorem exceptBind_ok {α β : Type} {x : Except String α} {f : α → Except String β} {b : β}
    (h : (x >>= f) = .ok b) : ∃ a, x = .ok a ∧ f a = .ok b := by
  cases x with
  | error e => simp [Bind.bind, Except.bind] at h
  | ok a => exact ⟨a, rfl, by simpa [Bind.bind, Except.bind] using h⟩

theorem exceptBind_err {α β : Type} {x : Except String α} {f : α → Except String β} {e : String}
    (hx : x = .error e) : (x >>= f) = .error e := by
  subst hx; rfl

theorem mapExcept_ok_mem {α β : Type} {f : α → Except String β} :
    ∀ {l : List α} {ys : List β}, mapExcept f l = .ok ys →
      ∀ y ∈ ys, ∃ x ∈ l, f x = .ok y := by
  intro l
  induction l with
  | nil =>
    intro ys h y hy
    simp [mapExcept] at h
    subst h
    simp at hy
  | cons x xs ih =>
    intro ys h y hy
    simp only [mapExcept] at h
    obtain ⟨a, ha, h2⟩ := exceptBind_ok h
    obtain ⟨as, has, h3⟩ := exceptBind_ok h2
    simp only [Except.ok.injEq] at h3
    subst h3
    rcases List.mem_cons.mp hy with rfl | hmem
    · exact ⟨x, List.mem_cons_self x xs, ha⟩
    · obtain ⟨x', hx', hfx'⟩ := ih has y hmem
      exact ⟨x', List.mem_cons_of_mem x hx', hfx'⟩

theorem dropWhile_dropWhile {α : Type} (p : α → Bool) (l : List α) :
    (l.dropWhile p).dropWhile p = l.dropWhile p := by
  induction l with
  | nil => rfl
  | cons x xs ih =>
    by_cases h : p x
    · simp [List.dropWhile_cons, h, ih]
    · simp [List.dropWhile_cons, h]

theorem dropWhile_fixed_head {α : Type} {p : α → Bool} {l : List α}
    (h : l.dropWhile p = l) : ∀ a t, l = a :: t → p a = false := by
  intro a t hl
  subst hl
  by_cases hpa : p a
  · rw [List.dropWhile_cons_of_pos hpa] at h
    have := congrArg List.length h
    simp at this
    have hle := (List.dropWhile_sublist (l := t) p).length_le
    omega
  · exact Bool.of_not_eq_true hpa

theorem dropWhile_of_prefix_fixed {α : Type} {p : α → Bool} {d r : List α}
    (hfix : d.dropWhile p = d) (hpre : r <+: d) : r.dropWhile p = r := by
  cases hr : r with
  | nil => rfl
  | cons a t =>
    subst hr
    obtain ⟨s, hs⟩ := hpre
    have hpa : p a = false := dropWhile_fixed_head hfix a (t ++ s) (by rw [← hs]; simp)
    simp [List.dropWhile_cons, hpa]

theorem stripChars_dropWhile (l : List Char) :
    (stripChars l).dropWhile isPySpace = stripChars l := by
  have hfix : (l.dropWhile isPySpace).dropWhile isPySpace = l.dropWhile isPySpace :=
    dropWhile_dropWhile _ _
  have hpre : stripChars l <+: l.dropWhile isPySpace := by
    have h : ((l.dropWhile isPySpace).reverse.dropWhile isPySpace).reverse
        <+: ((l.dropWhile isPySpace).reverse).reverse ↔
        (l.dropWhile isPySpace).reverse.dropWhile isPySpace <:+ (l.dropWhile isPySpace).reverse :=
      List.reverse_prefix
    simp only [List.reverse_reverse] at h
    exact h.mpr (List.dropWhile_suffix _)
  exact dropWhile_of_prefix_fixed hfix hpre

theorem stripChars_idem (l : List Char) : stripChars (stripChars l) = stripChars l := by
  have h1 : (stripChars l).dropWhile isPySpace = stripChars l := stripChars_dropWhile l
  have h2 : (stripChars l).reverse.dropWhile isPySpace = (stripChars l).reverse := by
    unfold stripChars
    simp only [List.reverse_reverse]
    rw [dropWhile_dropWhile]
  show (((stripChars l).dropWhile isPySpace).reverse.dropWhile isPySpace).reverse = stripChars l
  rw [h1, h2, List.reverse_reverse]

theorem pyStrip_idem (s : String) : pyStrip (pyStrip s) = pyStrip s := by
  unfold pyStrip
  show String.mk (stripChars (String.toList (String.mk (stripChars s.toList)))) = _
  rw [show String.toList (String.mk (stripChars s.toList)) = stripChars s.toList from rfl]
  rw [stripChars_idem]

theorem candidateStr_some {c : PyVal} {x : String} (h : candidateStr c = some x) :
    x ≠ "" ∧ pyStrip x = x := by
  unfold candidateStr at h
  split at h
  · cases h
  · dsimp at h
    split at h
    · rename_i hs
      cases h
      exact ⟨hs, pyStrip_idem _⟩
    · cases h

theorem collectNumbers_mem {cs : List PyVal} {x : String} (h : x ∈ collectNumbers cs) :
    x ≠ "" ∧ pyStrip x = x := by
  unfold collectNumbers at h
  obtain ⟨c, _, hc⟩ := List.mem_filterMap.mp h
  exact candidateStr_some hc

/-! ## Claim C1 — token caching (code bug) -/

/-- A fully configured environment for the token flow. -/
def tokenEnvOk : Env :=
  { IPAU_TOKEN_URL_TEST := some "https://auth.example/token"
    IPAU_CLIENT_ID := some "cid"
    IPAU_CLIENT_SECRET := some "secret" }

/-- A token endpoint interaction that succeeds with a valid body. -/
def tokenNetOk : HttpOutcome :=
  .resp true 200 "" (.ok (.dict [("access_token", .str "tok"), ("expires_in", .int 3600)]))

/-- C1: the claim says a successful token request stores the token in the
process-wide cache and a call shortly after returns it with zero network
calls.  The code cannot do either: `request_new_token` reads `token_url`,
`client_id` and `client_secret`, which are local variables of
`get_ipau_access_token` and not module globals, so every refresh raises
NameError before reaching the network, and the `_cached_token` assignment
on line 162 is a function-local binding (no `global` declaration), so the
module-level cache would stay `None` even if the body ran.  The theorem
evaluates the code at the failing input: full configuration, empty cache,
and a token endpoint that would respond successfully. -/
theorem C1_token_cache_never_written :
    get_ipau_access_token tokenEnvOk 0 tokenNetOk {} =
      .error "name \x27token_url\x27 is not defined"
    ∧ (∀ (net : HttpOutcome) (st : TokenState),
        request_new_token net st = .error "name \x27token_url\x27 is not defined") :=
  ⟨rfl, fun _ _ => rfl⟩

/-! ## Claim C7 — missing trademark base URL -/

/-- C7: with the trademark base URL unset the checker returns (rather than
raises) the fixed unknown-status configuration result, naming the missing
value, and the result does not depend on any collaborator, so no token
request and no search request is issued. -/
theorem C7_missing_base_url (env : Env) (net : CheckerNet) (name : String)
    (h : optTruthy (resolvedBaseUrl env) = false) :
    check_ip_australia_trademark env net name = missingBaseUrlResult
    ∧ missingBaseUrlResult.status = .unknown
    ∧ missingBaseUrlResult.details = some "Missing IPAU_TM_BASE_URL_TEST/PROD in environment" := by
  refine ⟨?_, rfl, rfl⟩
  unfold check_ip_australia_trademark
  simp [h]

/-- A collaborator bundle whose every interaction would raise; reaching any
of it would surface "dead" in the result. -/
def deadNet : CheckerNet :=
  { token := .error "dead", search := .raise "dead", detail := fun _ => .raise "dead" }

/-- Witness for C7 at a concrete empty environment. -/
theorem C7_missing_base_url_witness :
    check_ip_australia_trademark {} deadNet "Acme" = missingBaseUrlResult
    ∧ missingBaseUrlResult.status = .unknown
    ∧ missingBaseUrlResult.details = some "Missing IPAU_TM_BASE_URL_TEST/PROD in environment" :=
  C7_missing_base_url {} deadNet "Acme" rfl

theorem exceptOk_bind {α β : Type} (a : α) (f : α → Except String β) :
    (Except.ok a >>= f) = f a := rfl

theorem exceptError_bind {α β : Type} (e : String) (f : α → Except String β) :
    ((Except.error e : Except String α) >>= f) = .error e := rfl

/-! ## Claim C4 — extract_nice_classes -/

/-- The ordering property asserted by the claim: whenever a later element is
numeric, every earlier element is numeric too, i.e. all values parsing as
non-negative integers come before all non-numeric values. -/
def numericBeforeNonNumeric (l : List String) : Prop :=
  List.Pairwise (fun a b => pyIsDigit b = true → pyIsDigit a = true) l

/-- C4 counterexample, two refutations at concrete inputs.  First, "1000"
parses as a non-negative integer, yet its sort key is `int("1000") = 1000`,
which exceeds the fixed non-numeric key 999, so it sorts after the
non-numeric "abc" — refuting "numeric values come before all non-numeric
values".  Second, the claim says extract_nice_classes never fails, but the
sort key calls `int(x)` whenever `x.isdigit()` holds, and the superscript
two satisfies isdigit() while `int()` raises on it, so the input
`\x7b"classes": ["²"]\x7d` raises ValueError.  The ordered output shown is
independent of the unspecified CPython set order, see
`cex4_order_invariant`. -/
theorem C4_counterexample :
    extract_nice_classes [("classes", .list [.str "1000", .str "abc"])] = .ok ["abc", "1000"]
    ∧ pyIsDigit "1000" = true
    ∧ pyIsDigit "abc" = false
    ∧ ¬ numericBeforeNonNumeric ["abc", "1000"]
    ∧ pyIsDigit "²" = true
    ∧ extract_nice_classes [("classes", .list [.str "²"])]
        = .error ("invalid literal for int() with base 10: " ++ pyRepr (.str "²")) := by
  refine ⟨by rfl, by decide, by decide, ?_, by decide, by rfl⟩
  intro hp
  rcases List.pairwise_cons.mp hp with ⟨h1, _⟩
  exact absurd (h1 "1000" (List.mem_singleton.mpr rfl) (by decide)) (by decide)

/-- Both possible iteration orders of the deduplicated set on the
counterexample input sort to the same output. -/
theorem cex4_order_invariant :
    pySortedByNiceKey ["1000", "abc"] = .ok ["abc", "1000"]
    ∧ pySortedByNiceKey ["abc", "1000"] = .ok ["abc", "1000"] :=
  ⟨rfl, rfl⟩

theorem exceptMap_ok {α β : Type} {e : Except String α} {f : α → β} {b : β}
    (h : Except.map f e = .ok b) : ∃ a, e = .ok a ∧ f a = b := by
  cases e with
  | error err => simp [Except.map] at h
  | ok a =>
    refine ⟨a, rfl, ?_⟩
    simpa [Except.map] using h

theorem mapExcept_keyed_ok :
    ∀ {l : List String} {keyed : List (String × Int)},
      mapExcept (fun x => (pyNiceKey x).map (fun k => (x, k))) l = .ok keyed →
      keyed.map Prod.fst = l ∧ ∀ p ∈ keyed, pyNiceKey p.1 = .ok p.2 := by
  intro l
  induction l with
  | nil =>
    intro keyed h
    simp only [mapExcept, Except.ok.injEq] at h
    subst h
    exact ⟨rfl, by simp⟩
  | cons x xs ih =>
    intro keyed h
    simp only [mapExcept] at h
    obtain ⟨p, hp, h2⟩ := exceptBind_ok h
    obtain ⟨ps, hps, h3⟩ := exceptBind_ok h2
    simp only [Except.ok.injEq] at h3
    subst h3
    obtain ⟨k, hk, hpk⟩ := exceptMap_ok hp
    obtain ⟨hmap, hall⟩ := ih hps
    subst hpk
    refine ⟨by simp [hmap], ?_⟩
    intro q hq
    rcases List.mem_cons.mp hq with rfl | hq
    · exact hk
    · exact hall q hq

theorem mapExcept_of_pairs {l : List (String × Int)}
    (h : ∀ p ∈ l, pyNiceKey p.1 = .ok p.2) :
    mapExcept pyNiceKey (l.map Prod.fst) = .ok (l.map Prod.snd) := by
  induction l with
  | nil => rfl
  | cons p ps ih =>
    show (pyNiceKey p.1 >>= _) = _
    rw [h p (List.mem_cons_self p ps), exceptOk_bind]
    show (mapExcept pyNiceKey (ps.map Prod.fst) >>= _) = _
    rw [ih (fun q hq => h q (List.mem_cons_of_mem p hq)), exceptOk_bind]
    rfl

/-- C4 (amended): when extract_nice_classes returns, its output is
deduplicated, every element is a nonempty trimmed stringification, and the
key sequence `int(x) if x.isdigit() else 999` of the output is ascending
(stable sort), so numeric values below 999 precede all non-numeric values
while larger numeric values sort among or after them, and non-ASCII decimal
digits are keyed by their numeric value; the specific examples of the claim
hold, and absent or malformed data yields an empty sequence.  The function
is not total: it raises ValueError when a collected value consists of
digit-property characters that are not all decimal, because the sort key
calls `int()` on every isdigit()-true value (see the counterexample). -/
theorem C4_extract_nice_classes (tm : List (String × PyVal)) (rs : List String) (x : String)
    (hrs : extract_nice_classes tm = .ok rs) (hx : x ∈ rs) :
    rs.Nodup
    ∧ (∃ ks, mapExcept pyNiceKey rs = .ok ks ∧ List.Sorted (fun a b => a ≤ b) ks)
    ∧ (x ≠ "" ∧ pyStrip x = x)
    ∧ extract_nice_classes [("classes", .list [.str "35", .str "9", .str "35", .str "7"])]
        = .ok ["7", "9", "35"]
    ∧ extract_nice_classes
        [("goodsAndServices", .dict [("niceClasses", .list [.str "35", .str "9", .str "35", .str "7"])])]
        = .ok ["7", "9", "35"]
    ∧ extract_nice_classes
        [("classificationList", .list
          [.dict [("number", .str "35")], .dict [("number", .str "9")],
           .dict [("number", .str "35")], .dict [("number", .str "7")]])]
        = .ok ["7", "9", "35"]
    ∧ extract_nice_classes [("classes", .list [.str "35", .str "abc", .str "7"])]
        = .ok ["7", "35", "abc"]
    ∧ extract_nice_classes [("classes", .list [.str "٣", .str "5"])] = .ok ["٣", "5"]
    ∧ extract_nice_classes [] = .ok []
    ∧ extract_nice_classes [("classes", .str "nope"), ("goodsAndServices", .int 3)] = .ok [] := by
  unfold extract_nice_classes pySortedByNiceKey at hrs
  obtain ⟨keyed, hkeyed, h2⟩ := exceptBind_ok hrs
  simp only [Except.ok.injEq] at h2
  subst h2
  obtain ⟨hmapfst, hall⟩ := mapExcept_keyed_ok hkeyed
  have hperm : List.Perm (List.insertionSort keyedLe keyed) keyed :=
    List.perm_insertionSort keyedLe keyed
  refine ⟨?_, ?_, ?_, by rfl, by rfl, by rfl, by rfl, by rfl, by rfl, by rfl⟩
  · have hpf : List.Perm ((List.insertionSort keyedLe keyed).map Prod.fst) (keyed.map Prod.fst) :=
      hperm.map Prod.fst
    rw [hmapfst] at hpf
    exact (hpf.nodup_iff).mpr (List.nodup_dedup _)
  · refine ⟨(List.insertionSort keyedLe keyed).map Prod.snd, ?_, ?_⟩
    · exact mapExcept_of_pairs (fun p hp => hall p (hperm.mem_iff.mp hp))
    · have hsorted : List.Sorted keyedLe (List.insertionSort keyedLe keyed) :=
        List.sorted_insertionSort keyedLe keyed
      exact List.Pairwise.map Prod.snd (fun a b hab => hab) hsorted
  · obtain ⟨p, hp, hpx⟩ := List.mem_map.mp hx
    have hpk : p ∈ keyed := hperm.mem_iff.mp hp
    have hxd : x ∈ (collectNumbers (extractCandidates tm)).dedup := by
      rw [← hmapfst]
      exact List.mem_map.mpr ⟨p, hpk, hpx⟩
    exact collectNumbers_mem (List.mem_dedup.mp hxd)

/-! ## Claim C2 — the checker never raises -/

/-- C2: for every input and collaborator behaviour the checker is a total
function into CheckResult (the embedding returns a value for every oracle,
never an `Except.error`), and any exception raised inside the try block of
lines 284-452 — including a raise from token acquisition and a raise from
the quick-search call — is converted into the unknown-status result whose
details embed the exception text. -/
theorem C2_never_raises (env : Env) (net : CheckerNet) (name : String) (e : String) (tok : PyVal)
    (hb : optTruthy (resolvedBaseUrl env) = true) :
    (checkBody (normalize_query name) net = .error e →
      check_ip_australia_trademark env net name = requestFailedResult e)
    ∧ (net.token = .error e →
      check_ip_australia_trademark env net name = requestFailedResult e)
    ∧ (net.token = .ok tok → net.search = .raise e →
      check_ip_australia_trademark env net name = requestFailedResult e)
    ∧ (requestFailedResult e).status = .unknown
    ∧ (requestFailedResult e).details = some ("Request failed: " ++ e) := by
  have hmain : checkBody (normalize_query name) net = .error e →
      check_ip_australia_trademark env net name = requestFailedResult e := by
    intro h
    unfold check_ip_australia_trademark
    simp [hb, h]
  refine ⟨hmain, ?_, ?_, rfl, rfl⟩
  · intro h
    apply hmain
    unfold checkBody
    rw [h]
    rfl
  · intro h1 h2
    apply hmain
    unfold checkBody
    rw [h1, exceptOk_bind, h2]

/-- An environment in which the trademark base URL is configured. -/
def envOkTest : Env := { IPAU_TM_BASE_URL_TEST := some "https://tm.example" }

/-- Witness for C2: a token-acquisition raise surfaces as the unknown
result carrying the exception text. -/
theorem C2_never_raises_witness :
    check_ip_australia_trademark envOkTest deadNet "Acme" = requestFailedResult "dead" :=
  (C2_never_raises envOkTest deadNet "Acme" "dead" (.str "t") rfl).2.1 rfl

/-! ## Claim C6 — zero quick-search results -/

/-- C6: a successfully parsed quick-search response with `count == 0` or an
empty id list yields the fixed available-status result with empty match
lists, and the result does not depend on the detail-fetch collaborator, so
no detail fetch is issued. -/
theorem C6_zero_results (env : Env) (net : CheckerNet) (name : String)
    (tok data : PyVal) (stc : Nat) (text : String) (count : Int) (idlist : List PyVal)
    (hb : optTruthy (resolvedBaseUrl env) = true)
    (htok : net.token = .ok tok)
    (hsearch : net.search = .resp true stc text (.ok data))
    (hcount : quickCount data = .ok count)
    (hids : quickIdsOf data = .ok idlist)
    (hzero : count = 0 ∨ idlist = []) :
    (∀ f : PyVal → HttpOutcome,
      check_ip_australia_trademark env { net with detail := f } name = availableResult)
    ∧ availableResult.status = .available
    ∧ availableResult.exact_matches = []
    ∧ availableResult.similar_matches = []
    ∧ availableResult.summary = some "No registered word trademarks were found in Australia."
    ∧ availableResult.details = some "0 registered results returned by IP Australia quick search." := by
  have hcond : (count = 0 ∨ idlist.isEmpty = true) := by
    rcases hzero with h | h
    · exact Or.inl h
    · exact Or.inr (by simp [h])
  refine ⟨?_, rfl, rfl, rfl, rfl, rfl⟩
  intro f
  unfold check_ip_australia_trademark
  have hbody : checkBody (normalize_query name) { net with detail := f } = .ok availableResult := by
    unfold checkBody
    show (net.token >>= _) = _
    rw [htok, exceptOk_bind, hsearch]
    simp only [Bool.not_true, Bool.false_eq_true, if_false, ite_false]
    rw [exceptOk_bind, hcount, exceptOk_bind, hids, exceptOk_bind, if_pos hcond]
  simp [hb, hbody]

/-- A collaborator bundle returning a zero-count quick-search response. -/
def netZero : CheckerNet :=
  { token := .ok (.str "tok")
    search := .resp true 200 "" (.ok (.dict [("count", .int 0), ("trademarkIds", .list [])]))
    detail := fun _ => .raise "dead" }

/-- Witness for C6 at a concrete zero-count response. -/
theorem C6_zero_results_witness :
    (∀ f : PyVal → HttpOutcome,
      check_ip_australia_trademark envOkTest { netZero with detail := f } "Acme" = availableResult)
    ∧ availableResult.status = .available
    ∧ availableResult.exact_matches = []
    ∧ availableResult.similar_matches = []
    ∧ availableResult.summary = some "No registered word trademarks were found in Australia."
    ∧ availableResult.details = some "0 registered results returned by IP Australia quick search." :=
  C6_zero_results envOkTest netZero "Acme" (.str "tok")
    (.dict [("count", .int 0), ("trademarkIds", .list [])]) 200 "" 0 []
    rfl rfl rfl rfl rfl (Or.inl rfl)

/-! ## Claim C5 — bare-id fallback -/

theorem mapExcept_strs (l : List String) :
    mapExcept (fun v => match v with
      | PyVal.str s => Except.ok s
      | w => Except.error ("sequence item: expected str instance, " ++ pyTypeName w ++ " found"))
      (l.map PyVal.str) = .ok l := by
  induction l with
  | nil => rfl
  | cons x xs ih =>
    show (Except.ok x >>= fun y => _) = _
    rw [exceptOk_bind]
    show (mapExcept _ (xs.map PyVal.str) >>= fun ys => _) = _
    rw [ih, exceptOk_bind]

theorem pyJoinComma_strs (l : List String) :
    pyJoinComma (l.map PyVal.str) = .ok (String.intercalate ", " l) := by
  unfold pyJoinComma
  rw [mapExcept_strs, exceptOk_bind]

theorem filters_empty_of_no_words (ql : String) {parsed : List TrademarkMatch}
    (h : ∀ m ∈ parsed, wordsTruthy m = false) :
    parsed.filter (isExactMatch ql) = [] ∧ parsed.filter (isSimilarMatch ql) = [] := by
  constructor <;>
    · rw [List.filter_eq_nil_iff]
      intro m hm
      simp [isExactMatch, isSimilarMatch, h m hm]

/-- C5: when the quick search reports a nonzero count and a nonempty id
list, but every parsed detail yields empty words (both partitions empty),
the checker returns the similar-status fallback whose similarMatches are
bare-id placeholder matches for the first at-most-5 ids and whose details
string names those ids. -/
theorem C5_bare_id_fallback (env : Env) (net : CheckerNet) (name : String)
    (tok data : PyVal) (stc : Nat) (text : String) (count : Int) (ids : List String)
    (drs : List DetailResult) (parsed : List TrademarkMatch)
    (hb : optTruthy (resolvedBaseUrl env) = true)
    (htok : net.token = .ok tok)
    (hsearch : net.search = .resp true stc text (.ok data))
    (hcount : quickCount data = .ok count)
    (hc : ¬ count = 0)
    (hids : quickIdsOf data = .ok (ids.map PyVal.str))
    (hne : ids ≠ [])
    (hgather : gatherDetails net.detail ((ids.map PyVal.str).take 5) = .ok drs)
    (hparse : mapExcept parseMatch drs = .ok parsed)
    (hempty : ∀ m ∈ parsed, wordsTruthy m = false) :
    check_ip_australia_trademark env net name =
      { label := "Trademark (IP Australia)"
        status := .similar
        summary := some "Registered trademarks exist with this name or something similar."
        why_this_matters := some "Even if names aren\x27t identical, similar marks in related categories can increase legal and branding risk."
        details := some ("Found " ++ toString count ++ " registered match(es). IDs: "
          ++ String.intercalate ", " (ids.take 5))
        exact_matches := []
        similar_matches := (ids.take 5).map (fun i => { id := PyVal.str i }) } := by
  obtain ⟨hex, hsim⟩ := filters_empty_of_no_words (pyLower (normalize_query name)) hempty
  have hcond : ¬ (count = 0 ∨ (List.map PyVal.str ids).isEmpty = true) := by
    rintro (h | h)
    · exact hc h
    · exact hne (by simpa using h)
  have hbody : checkBody (normalize_query name) net =
      .ok { label := "Trademark (IP Australia)"
            status := .similar
            summary := some "Registered trademarks exist with this name or something similar."
            why_this_matters := some "Even if names aren\x27t identical, similar marks in related categories can increase legal and branding risk."
            details := some ("Found " ++ toString count ++ " registered match(es). IDs: "
              ++ String.intercalate ", " (ids.take 5))
            exact_matches := []
            similar_matches := (ids.take 5).map (fun i => { id := PyVal.str i }) } := by
    unfold checkBody
    show (net.token >>= _) = _
    rw [htok, exceptOk_bind, hsearch]
    simp only [Bool.not_true, Bool.false_eq_true, if_false, ite_false]
    rw [exceptOk_bind, hcount, exceptOk_bind, hids, exceptOk_bind, if_neg hcond]
    rw [hgather, exceptOk_bind]
    unfold buildResult
    rw [hparse, exceptOk_bind, hex, hsim]
    rw [if_pos (by simp)]
    rw [show (List.map PyVal.str ids).take 5 = List.map PyVal.str (ids.take 5) from
      (List.map_take PyVal.str ids 5).symm]
    rw [pyJoinComma_strs, exceptOk_bind, List.map_map]
    rfl
  unfold check_ip_australia_trademark
  simp [hb, hbody]

/-- A search response with one id whose detail record has no word field. -/
def netWordless : CheckerNet :=
  { token := .ok (.str "tok")
    search := .resp true 200 "" (.ok (.dict [("count", .int 1), ("trademarkIds", .list [.str "123"])]))
    detail := fun _ => .resp true 200 "" (.ok (.dict [("unrelated", .str "x")])) }

/-- Witness for C5: one id, detail fetch succeeds but carries no word
field, so the parsed match has empty words and the fallback result lists
the bare id. -/
theorem C5_bare_id_fallback_witness :
    check_ip_australia_trademark envOkTest netWordless "Acme" =
      { label := "Trademark (IP Australia)"
        status := .similar
        summary := some "Registered trademarks exist with this name or something similar."
        why_this_matters := some "Even if names aren\x27t identical, similar marks in related categories can increase legal and branding risk."
        details := some ("Found " ++ toString (1 : Int) ++ " registered match(es). IDs: "
          ++ String.intercalate ", " (["123"].take 5))
        exact_matches := []
        similar_matches := (["123"].take 5).map (fun i => { id := PyVal.str i }) } :=
  C5_bare_id_fallback envOkTest netWordless "Acme" (.str "tok")
    (.dict [("count", .int 1), ("trademarkIds", .list [.str "123"])]) 200 "" 1 ["123"]
    [⟨.str "123", .data (.dict [("unrelated", .str "x")])⟩]
    [{ id := .str "123", words := some "", status := some "", classes := [], class_labels := [] }]
    rfl rfl rfl rfl (by decide) rfl (by decide) rfl rfl
    (by intro m hm; simp at hm; subst hm; rfl)

/-! ## Claim C3 — exact and similar partition -/

theorem truthy_mem_filter (ql : String) {parsed : List TrademarkMatch} {p : TrademarkMatch}
    (hp : p ∈ parsed) (ht : wordsTruthy p = true) :
    p ∈ parsed.filter (isExactMatch ql) ∨ p ∈ parsed.filter (isSimilarMatch ql) := by
  by_cases he : pyLower (p.words.getD "") = ql
  · exact Or.inl (List.mem_filter.mpr ⟨hp, by simp [isExactMatch, ht, he]⟩)
  · exact Or.inr (List.mem_filter.mpr ⟨hp, by simp [isSimilarMatch, ht, he]⟩)

/-- C3: the list comprehensions of lines 399-421 put a parsed match into
exactMatches iff its words are truthy and lowercase-equal to the lowered
normalized query, into similarMatches iff truthy and not equal; matches
with empty words land in neither; and when at least one parsed match has
truthy words the result of the classification stage is taken exactly when
exactMatches is nonempty and similar otherwise, carrying the two filters as
its match lists. -/
theorem C3_partition (q : String) (count : Int) (trademark_ids : List PyVal)
    (detail_results : List DetailResult) (parsed : List TrademarkMatch) (m : TrademarkMatch)
    (hparse : mapExcept parseMatch detail_results = .ok parsed) :
    (m ∈ parsed.filter (isExactMatch (pyLower q)) ↔
      m ∈ parsed ∧ wordsTruthy m = true ∧ pyLower (m.words.getD "") = pyLower q)
    ∧ (m ∈ parsed.filter (isSimilarMatch (pyLower q)) ↔
      m ∈ parsed ∧ wordsTruthy m = true ∧ pyLower (m.words.getD "") ≠ pyLower q)
    ∧ (wordsTruthy m = false →
      m ∉ parsed.filter (isExactMatch (pyLower q))
      ∧ m ∉ parsed.filter (isSimilarMatch (pyLower q)))
    ∧ ((∃ p ∈ parsed, wordsTruthy p = true) →
      ∃ r, buildResult (pyLower q) count trademark_ids detail_results = .ok r
        ∧ (r.status = .taken ↔ parsed.filter (isExactMatch (pyLower q)) ≠ [])
        ∧ (r.status = .taken ∨ r.status = .similar)
        ∧ r.exact_matches = parsed.filter (isExactMatch (pyLower q))
        ∧ r.similar_matches = parsed.filter (isSimilarMatch (pyLower q))) := by
  refine ⟨?_, ?_, ?_, ?_⟩
  · rw [List.mem_filter]
    simp [isExactMatch, and_assoc]
  · rw [List.mem_filter]
    simp [isSimilarMatch, and_assoc]
  · intro hf
    constructor <;>
      · intro hmem
        have hcond := (List.mem_filter.mp hmem).2
        simp [isExactMatch, isSimilarMatch, hf] at hcond
  · rintro ⟨p, hp, ht⟩
    have hne0 : ¬ ((parsed.filter (isExactMatch (pyLower q))).length
        + (parsed.filter (isSimilarMatch (pyLower q))).length = 0) := by
      rcases truthy_mem_filter (pyLower q) hp ht with h | h <;>
        · have hlen := List.length_pos.mpr (List.ne_nil_of_mem h)
          omega
    have hbuild : buildResult (pyLower q) count trademark_ids detail_results =
        .ok { label := "Trademark (IP Australia)"
              status := if 0 < (parsed.filter (isExactMatch (pyLower q))).length
                then .taken else .similar
              summary := some (if 0 < (parsed.filter (isExactMatch (pyLower q))).length then
                  "An identical registered trademark exists in Australia."
                else
                  "Similar registered trademarks exist in Australia.")
              why_this_matters := some (if 0 < (parsed.filter (isExactMatch (pyLower q))).length then
                  "Using the same name can create a high risk of trademark conflict, especially in related industries."
                else
                  "Even if names aren\x27t identical, similar marks in related categories can still cause legal and branding risk.")
              details := some ("Found " ++ toString count ++ " registered match(es). Showing the top "
                ++ toString (trademark_ids.take 5).length ++ ".")
              exact_matches := parsed.filter (isExactMatch (pyLower q))
              similar_matches := parsed.filter (isSimilarMatch (pyLower q)) } := by
      unfold buildResult
      rw [hparse, exceptOk_bind, if_neg hne0]
    refine ⟨_, hbuild, ?_, ?_, rfl, rfl⟩
    · by_cases hpos : 0 < (parsed.filter (isExactMatch (pyLower q))).length
      · simp only [if_pos hpos]
        simp [List.length_pos.mp hpos]
      · simp only [if_neg hpos]
        have hnil : parsed.filter (isExactMatch (pyLower q)) = [] :=
          List.length_eq_zero.mp (by omega)
        simp [hnil]
    · by_cases hpos : 0 < (parsed.filter (isExactMatch (pyLower q))).length <;>
        simp [hpos]

/-- One detail record carrying an exact word match for the query "acme". -/
def drs3 : List DetailResult :=
  [⟨.str "1", .data (.dict [("words", .str "Acme")])⟩]

/-- The parse of `drs3`. -/
def parsed3 : List TrademarkMatch :=
  [{ id := .str "1", words := some "Acme", status := some "", classes := [], class_labels := [] }]

/-- Witness for C3: with one exactly matching parsed record the
classification stage returns taken with that match in exactMatches. -/
theorem C3_partition_witness :
    ∃ r, buildResult (pyLower "acme") 1 [.str "1"] drs3 = .ok r
      ∧ (r.status = .taken ↔ parsed3.filter (isExactMatch (pyLower "acme")) ≠ [])
      ∧ (r.status = .taken ∨ r.status = .similar)
      ∧ r.exact_matches = parsed3.filter (isExactMatch (pyLower "acme"))
      ∧ r.similar_matches = parsed3.filter (isSimilarMatch (pyLower "acme")) :=
  (C3_partition "acme" 1 [.str "1"] drs3 parsed3
      { id := .str "1", words := some "Acme", status := some "", classes := [], class_labels := [] }
      rfl).2.2.2
    ⟨{ id := .str "1", words := some "Acme", status := some "", classes := [], class_labels := [] },
      List.mem_singleton.mpr rfl, rfl⟩

/-! ## Claim C10 — whitespace differences never count as exact -/

/-- C10: the comparison of lines 399-421 lowercases but does not normalize
whitespace, so a record whose extracted words agree with the normalized
query up to whitespace runs (case-insensitively) but differ verbatim is
classified similar and never exact. -/
theorem C10_whitespace_never_exact (q w : String) (parsed : List TrademarkMatch)
    (m : TrademarkMatch)
    (hw : m.words = some w) (hne : w ≠ "")
    (hnorm : pyLower (normalize_query w) = pyLower q)
    (hdiff : pyLower w ≠ pyLower q)
    (hmem : m ∈ parsed) :
    m ∈ parsed.filter (isSimilarMatch (pyLower q))
    ∧ m ∉ parsed.filter (isExactMatch (pyLower q)) := by
  constructor
  · exact List.mem_filter.mpr ⟨hmem, by simp [isSimilarMatch, wordsTruthy, hw, hne, hdiff]⟩
  · intro hc
    have hcond := (List.mem_filter.mp hc).2
    simp [isExactMatch, wordsTruthy, hw, hne] at hcond
    exact hdiff hcond

/-- A match whose words differ from the query only by a doubled internal
space. -/
def mW10 : TrademarkMatch := { id := .str "1", words := some "acme  brew" }

/-- Witness for C10: "acme  brew" equals the normalized query "acme brew"
after whitespace collapsing, yet is classified similar, not exact. -/
theorem C10_whitespace_never_exact_witness :
    mW10 ∈ [mW10].filter (isSimilarMatch (pyLower "acme brew"))
    ∧ mW10 ∉ [mW10].filter (isExactMatch (pyLower "acme brew")) :=
  C10_whitespace_never_exact "acme brew" "acme  brew" [mW10] mW10 rfl (by decide)
    (by decide) (by decide) (List.mem_singleton.mpr rfl)

/-! ## Claim C8 — classLabels parallel to classes -/

theorem parseMatch_labels {d : DetailResult} {m : TrademarkMatch}
    (h : parseMatch d = .ok m) : m.class_labels = m.classes.map label_nice_class := by
  obtain ⟨id, payload⟩ := d
  cases payload with
  | error msg =>
    simp only [parseMatch] at h
    cases h
    rfl
  | data tm =>
    simp only [parseMatch] at h
    obtain ⟨w, hw, h2⟩ := exceptBind_ok h
    obtain ⟨s, hs, h3⟩ := exceptBind_ok h2
    obtain ⟨g, hg, h4⟩ := exceptBind_ok h3
    cases g <;>
      · obtain ⟨col, hcol, h5⟩ := exceptBind_ok h4
        obtain ⟨cls, hcls, h6⟩ := exceptBind_ok h5
        simp only [Except.ok.injEq] at h6
        subst h6
        rfl

theorem buildResult_labels {q : String} {count : Int} {ids : List PyVal}
    {drs : List DetailResult} {r : CheckResult}
    (h : buildResult q count ids drs = .ok r) :
    ∀ m ∈ r.exact_matches ++ r.similar_matches,
      m.class_labels = m.classes.map label_nice_class := by
  unfold buildResult at h
  obtain ⟨parsed, hparse, h2⟩ := exceptBind_ok h
  by_cases hz : (parsed.filter (isExactMatch q)).length + (parsed.filter (isSimilarMatch q)).length = 0
  · rw [if_pos hz] at h2
    obtain ⟨jn, hjn, h3⟩ := exceptBind_ok h2
    simp only [Except.ok.injEq] at h3
    subst h3
    intro m hm
    simp only [List.nil_append] at hm
    obtain ⟨id, _, rfl⟩ := List.mem_map.mp hm
    rfl
  · rw [if_neg hz] at h2
    simp only [Except.ok.injEq] at h2
    subst h2
    intro m hm
    rcases List.mem_append.mp hm with hmem | hmem <;>
      · obtain ⟨d, _, hpd⟩ := mapExcept_ok_mem hparse m (List.mem_filter.mp hmem).1
        exact parseMatch_labels hpd

theorem checkBody_labels {q : String} {net : CheckerNet} {r : CheckResult}
    (h : checkBody q net = .ok r) :
    ∀ m ∈ r.exact_matches ++ r.similar_matches,
      m.class_labels = m.classes.map label_nice_class := by
  unfold checkBody at h
  obtain ⟨tok, htok, h2⟩ := exceptBind_ok h
  cases hs : net.search with
  | raise msg =>
    rw [hs] at h2
    cases h2
  | resp ok status text js =>
    rw [hs] at h2
    cases ok with
    | false =>
      simp only [Bool.not_false, if_true, ite_true, Except.ok.injEq] at h2
      subst h2
      intro m hm
      simp [searchHttpErrorResult] at hm
    | true =>
      simp only [Bool.not_true, Bool.false_eq_true, if_false, ite_false] at h2
      cases js with
      | error e => cases h2
      | ok data =>
        rw [exceptOk_bind] at h2
        cases hqc : quickCount data with
        | error e => rw [hqc] at h2; cases h2
        | ok count =>
          rw [hqc, exceptOk_bind] at h2
          cases hqi : quickIdsOf data with
          | error e => rw [hqi] at h2; cases h2
          | ok idl =>
            rw [hqi, exceptOk_bind] at h2
            by_cases hz : (count = 0 ∨ idl.isEmpty = true)
            · rw [if_pos hz] at h2
              simp only [Except.ok.injEq] at h2
              subst h2
              intro m hm
              simp [availableResult] at hm
            · rw [if_neg hz] at h2
              cases hg : gatherDetails net.detail (idl.take 5) with
              | error e => rw [hg] at h2; cases h2
              | ok drs =>
                rw [hg, exceptOk_bind] at h2
                exact buildResult_labels h2

/-- C8: every TrademarkMatch surfaced in a checker result has classLabels
obtained by mapping the Class Label Resolver over classes, hence equal
length and identical order, and the resolver renders a mapped code as
"code (description)" and an unmapped code unchanged. -/
theorem C8_class_labels (env : Env) (net : CheckerNet) (name : String) (m : TrademarkMatch)
    (hm : m ∈ (check_ip_australia_trademark env net name).exact_matches
        ++ (check_ip_australia_trademark env net name).similar_matches) :
    m.class_labels = m.classes.map label_nice_class
    ∧ m.class_labels.length = m.classes.length
    ∧ label_nice_class "35" = "35 (Advertising, business & retail services)"
    ∧ label_nice_class "999" = "999" := by
  have hinv : m.class_labels = m.classes.map label_nice_class := by
    unfold check_ip_australia_trademark at hm
    cases hopt : optTruthy (resolvedBaseUrl env) with
    | false =>
      rw [hopt] at hm
      simp [missingBaseUrlResult] at hm
    | true =>
      rw [hopt] at hm
      simp only [Bool.not_true, Bool.false_eq_true, if_false, ite_false] at hm
      cases hcb : checkBody (normalize_query name) net with
      | error e =>
        rw [hcb] at hm
        simp [requestFailedResult] at hm
      | ok res =>
        rw [hcb] at hm
        exact checkBody_labels hcb m hm
  exact ⟨hinv, by rw [hinv, List.length_map], by decide, by decide⟩

/-- The result of the witness run: one similar match in class 35. -/
def netW8 : CheckerNet :=
  { token := .ok (.str "tok")
    search := .resp true 200 "" (.ok (.dict [("count", .int 1), ("trademarkIds", .list [.str "1"])]))
    detail := fun _ => .resp true 200 ""
      (.ok (.dict [("words", .str "Acme Co"), ("goodsAndServices", .list [.dict [("class", .str "35")]])])) }

/-- The match produced by the witness run. -/
def mW8 : TrademarkMatch :=
  { id := .str "1", words := some "Acme Co", status := some "", classes := ["35"],
    class_labels := ["35 (Advertising, business & retail services)"] }

/-- Witness for C8 on a concrete checker run producing one match. -/
theorem C8_class_labels_witness :
    mW8.class_labels = mW8.classes.map label_nice_class
    ∧ mW8.class_labels.length = mW8.classes.length
    ∧ label_nice_class "35" = "35 (Advertising, business & retail services)"
    ∧ label_nice_class "999" = "999" :=
  C8_class_labels envOkTest netW8 "acme" mW8 (by
    rw [show check_ip_australia_trademark envOkTest netW8 "acme" =
        { label := "Trademark (IP Australia)"
          status := .similar
          summary := some "Similar registered trademarks exist in Australia."
          why_this_matters := some "Even if names aren\x27t identical, similar marks in related categories can still cause legal and branding risk."
          details := some "Found 1 registered match(es). Showing the top 1."
          exact_matches := []
          similar_matches := [mW8] } from rfl]
    exact List.mem_append.mpr (Or.inr (List.mem_singleton.mpr rfl)))

/-! ## Claim C9 — detail-fetch fan-out -/

/-- Whether an HTTP interaction raises in the client. -/
def isRaise : HttpOutcome → Bool
  | .raise _ => true
  | _ => false

theorem fetch_ok_of_not_raise (id : PyVal) {o : HttpOutcome} (h : isRaise o = false) :
    ∃ dr, fetch_trademark_details id o = .ok dr ∧ dr.id = id
      ∧ ((∃ d, dr.payload = .data d) ∨ (∃ msg, dr.payload = .error msg)) := by
  cases o with
  | raise m => simp [isRaise] at h
  | resp ok status text js =>
    cases ok with
    | false => exact ⟨_, rfl, rfl, Or.inr ⟨_, rfl⟩⟩
    | true =>
      cases js with
      | ok d => exact ⟨_, rfl, rfl, Or.inl ⟨d, rfl⟩⟩
      | error e => exact ⟨_, rfl, rfl, Or.inr ⟨_, rfl⟩⟩

theorem gatherDetails_ok {f : PyVal → HttpOutcome} :
    ∀ {ids : List PyVal}, (∀ id ∈ ids, isRaise (f id) = false) →
      ∃ rs, gatherDetails f ids = .ok rs
        ∧ rs.map DetailResult.id = ids
        ∧ ∀ r ∈ rs, (∃ d, r.payload = .data d) ∨ (∃ msg, r.payload = .error msg) := by
  intro ids
  induction ids with
  | nil => exact fun _ => ⟨[], rfl, rfl, by simp⟩
  | cons x xs ih =>
    intro h
    obtain ⟨dr, hdr, hid, hpay⟩ := fetch_ok_of_not_raise x (h x (List.mem_cons_self x xs))
    obtain ⟨rs, hrs, hmap, hall⟩ := ih (fun id hid' => h id (List.mem_cons_of_mem x hid'))
    refine ⟨dr :: rs, ?_, ?_, ?_⟩
    · show (fetch_trademark_details x (f x) >>= _) = _
      rw [hdr, exceptOk_bind]
      show (gatherDetails f xs >>= _) = _
      rw [hrs, exceptOk_bind]
    · simp [hid, hmap]
    · intro r hr
      rcases List.mem_cons.mp hr with rfl | hr
      · exact hpay
      · exact hall r hr

theorem gatherDetails_congr {f g : PyVal → HttpOutcome} :
    ∀ {ids : List PyVal}, (∀ id ∈ ids, f id = g id) →
      gatherDetails f ids = gatherDetails g ids := by
  intro ids
  induction ids with
  | nil => exact fun _ => rfl
  | cons x xs ih =>
    intro h
    have htail := ih (fun id hid => h id (List.mem_cons_of_mem x hid))
    show (fetch_trademark_details x (f x) >>= fun y =>
        (gatherDetails f xs >>= fun ys => Except.ok (y :: ys))) = _
    rw [h x (List.mem_cons_self x xs), htail]
    rfl

/-- The ids whose detail outcome the checker body can consult: the first
at most 5 ids of a successfully parsed quick-search response. -/
def searchTopIds (net : CheckerNet) : List PyVal :=
  match net.search with
  | .resp _ _ _ (.ok data) =>
    match quickIdsOf data with
    | .ok l => l.take 5
    | .error _ => []
  | _ => []

theorem check_detail_take5_congr (env : Env) (net : CheckerNet) (g : PyVal → HttpOutcome)
    (name : String)
    (hagree : ∀ id ∈ searchTopIds net, net.detail id = g id) :
    check_ip_australia_trademark env net name =
      check_ip_australia_trademark env { net with detail := g } name := by
  obtain ⟨tk, sr, dt⟩ := net
  unfold check_ip_australia_trademark
  suffices hbody : checkBody (normalize_query name) ⟨tk, sr, dt⟩
      = checkBody (normalize_query name) ⟨tk, sr, g⟩ by
    dsimp only
    rw [hbody]
  unfold checkBody
  cases htok : tk with
  | error e => rfl
  | ok tok =>
    show (Except.ok tok >>= _) = (Except.ok tok >>= _)
    rw [exceptOk_bind, exceptOk_bind]
    cases hs : sr with
    | raise m => rfl
    | resp ok st text js =>
      cases ok with
      | false => rfl
      | true =>
        simp only [Bool.not_true, Bool.false_eq_true, if_false, ite_false]
        cases js with
        | error e => rfl
        | ok data =>
          rw [exceptOk_bind, exceptOk_bind]
          cases hqc : quickCount data with
          | error e => rfl
          | ok count =>
            rw [exceptOk_bind, exceptOk_bind]
            cases hqi : quickIdsOf data with
            | error e => rfl
            | ok idl =>
              rw [exceptOk_bind, exceptOk_bind]
              by_cases hz : (count = 0 ∨ idl.isEmpty = true)
              · rw [if_pos hz, if_pos hz]
              · rw [if_neg hz, if_neg hz]
                have hagree' : ∀ id ∈ idl.take 5, dt id = g id := by
                  intro id hid
                  apply hagree
                  simp only [searchTopIds, hs, hqi]
                  exact hid
                rw [gatherDetails_congr hagree']

/-- C9 (amended): the fan-out fetches details for at most the first 5 ids
of the quick-search list (the checker result depends on the detail
collaborator only at those ids); when no fetch raises in the HTTP client,
every per-id result is `\x7bid, data\x7d` or `\x7bid, error\x7d` — a
non-success status or non-JSON body is captured per id without aborting the
others — and the gathered list preserves the original id order, collected
positionally.  A transport-level exception from one fetch, however,
propagates and aborts the whole check (see the counterexample). -/
theorem C9_detail_fanout (f g : PyVal → HttpOutcome) (ids : List PyVal)
    (env : Env) (net : CheckerNet) (name : String)
    (hnr : ∀ id ∈ ids.take 5, isRaise (f id) = false)
    (hagree : ∀ id ∈ searchTopIds net, net.detail id = g id) :
    (∃ rs, gatherDetails f (ids.take 5) = .ok rs
      ∧ rs.map DetailResult.id = ids.take 5
      ∧ ∀ r ∈ rs, (∃ d, r.payload = .data d) ∨ (∃ msg, r.payload = .error msg))
    ∧ check_ip_australia_trademark env net name =
        check_ip_australia_trademark env { net with detail := g } name :=
  ⟨gatherDetails_ok hnr, check_detail_take5_congr env net g name hagree⟩

/-- Witness for C9 over a two-id fan-out with one HTTP failure. -/
theorem C9_detail_fanout_witness :
    (∃ rs, gatherDetails
        (fun id => match id with
          | .str "A" => .resp false 500 "err" (.ok .none)
          | _ => .resp true 200 "" (.ok (.dict [("words", .str "acme")])))
        ([PyVal.str "A", PyVal.str "B"].take 5) = .ok rs
      ∧ rs.map DetailResult.id = [PyVal.str "A", PyVal.str "B"].take 5
      ∧ ∀ r ∈ rs, (∃ d, r.payload = .data d) ∨ (∃ msg, r.payload = .error msg))
    ∧ check_ip_australia_trademark envOkTest netWordless "Acme" =
        check_ip_australia_trademark envOkTest { netWordless with detail := netWordless.detail } "Acme" :=
  C9_detail_fanout
    (fun id => match id with
      | .str "A" => .resp false 500 "err" (.ok .none)
      | _ => .resp true 200 "" (.ok (.dict [("words", .str "acme")])))
    netWordless.detail [PyVal.str "A", PyVal.str "B"] envOkTest netWordless "Acme"
    (by intro id hid; fin_cases hid <;> rfl)
    (fun id _ => rfl)

/-- A detail collaborator that raises for id "A" and returns an exact match
for id "B". -/
def netRaisingDetail : CheckerNet :=
  { token := .ok (.str "tok")
    search := .resp true 200 ""
      (.ok (.dict [("count", .int 2), ("trademarkIds", .list [.str "A", .str "B"])]))
    detail := fun id => match id with
      | .str "A" => .raise "boom"
      | _ => .resp true 200 "" (.ok (.dict [("words", .str "acme")])) }

/-- C9 counterexample: fetch_trademark_details only captures non-success
statuses and non-JSON bodies per id; an exception raised by the HTTP client
itself propagates, so one raising fetch aborts the others: id "B" carries
an exact match for the query, yet the whole check returns unknown instead
of taken — refuting "never throws, one failure does not abort the
others". -/
theorem C9_counterexample :
    fetch_trademark_details (.str "A") (.raise "boom") = .error "boom"
    ∧ check_ip_australia_trademark envOkTest netRaisingDetail "acme" = requestFailedResult "boom"
    ∧ (requestFailedResult "boom").status = .unknown
    ∧ fetch_trademark_details (.str "B") (netRaisingDetail.detail (.str "B"))
        = .ok ⟨.str "B", .data (.dict [("words", .str "acme")])⟩ :=
  ⟨rfl, rfl, rfl, rfl⟩

/-- Witness for C4 at the mixed numeric and non-numeric example. -/
theorem C4_extract_nice_classes_witness :
    (["7", "35", "abc"] : List String).Nodup
    ∧ (∃ ks, mapExcept pyNiceKey ["7", "35", "abc"] = .ok ks
        ∧ List.Sorted (fun a b => a ≤ b) ks)
    ∧ ("abc" ≠ "" ∧ pyStrip "abc" = "abc")
    ∧ extract_nice_classes [("classes", .list [.str "35", .str "9", .str "35", .str "7"])]
        = .ok ["7", "9", "35"]
    ∧ extract_nice_classes
        [("goodsAndServices", .dict [("niceClasses", .list [.str "35", .str "9", .str "35", .str "7"])])]
        = .ok ["7", "9", "35"]
    ∧ extract_nice_classes
        [("classificationList", .list
          [.dict [("number", .str "35")], .dict [("number", .str "9")],
           .dict [("number", .str "35")], .dict [("number", .str "7")]])]
        = .ok ["7", "9", "35"]
    ∧ extract_nice_classes [("classes", .list [.str "35", .str "abc", .str "7"])]
        = .ok ["7", "35", "abc"]
    ∧ extract_nice_classes [("classes", .list [.str "٣", .str "5"])] = .ok ["٣", "5"]
    ∧ extract_nice_classes [] = .ok []
    ∧ extract_nice_classes [("classes", .str "nope"), ("goodsAndServices", .int 3)] = .ok [] :=
  C4_extract_nice_classes [("classes", .list [.str "35", .str "abc", .str "7"])]
    ["7", "35", "abc"] "abc" (by rfl) (by decide)

end BrandChecker
